import Mathlib

/-!
Verification of the SmartHand core against its natural-language specification.

The development shallowly embeds the Python sources:
  * `src/smarthand/app.py`   — coordinate mapper (`calibrate_mapping`,
    `image_to_real_coordinates`, `image_point_to_mapping_space`), the
    full-image branch of `calculate_transformation_matrix`, and
    `run_touch_sequence`;
  * `src/smarthand/robot.py` — `RobotController` (`send_command`,
    `move_linear_absolute`, `move_linear_relative`, `dwell`, `home`,
    `connect`, `disconnect`, `get_position`);
  * `src/SmartHand.py`       — the second `RobotController` variant
    (`move_linear_relative` with a try/finally restore, `dwell` with a
    1 ms floor, `disconnect` resetting the tracked pose).

Machine floats are modelled by `ℚ`; serial text lines by `List Char`;
the serial device by a per-command script (reply lines, or a raised
exception); Python `float()` by an oracle parameter.
-/

/-! ## Basic geometry -/

/-- A 2-D point, pixel or millimetre depending on context. -/
structure Vec2 where
  x : ℚ
  y : ℚ
deriving DecidableEq

/-- A 3-D robot position in millimetres. -/
structure Vec3 where
  x : ℚ
  y : ℚ
  z : ℚ
deriving DecidableEq

/-! ## CoordinateMapper (app.py lines 1473-1555) -/

/-- Embeds `SmartHandApp.image_point_to_mapping_space`: converts an image
point to a Cartesian mapping space (Y axis pointing up) using the current
transformed-frame height; a missing or zero height leaves the point as is
(Python falsiness of `None` and `0`). -/
def image_point_to_mapping_space (height : Option ℚ) (p : Vec2) : Vec2 :=
  match height with
  | none => p
  | some h => if h = 0 then p else ⟨p.x, h - p.y⟩

/-- The fitted axis-aligned anisotropic map: `robot = scale ⊙ cart + translate`.
Embeds the `mapping_matrix` dictionary (diagonal `rotation_scale` plus
`translation`). -/
structure MappingMatrix where
  sx : ℚ
  sy : ℚ
  tx : ℚ
  ty : ℚ
deriving DecidableEq

/-- Embeds the numeric core of `SmartHandApp.calibrate_mapping` (app.py
lines 1511-1536): Y-flip both image points, reject when either Cartesian
delta is below `1e-6` in absolute value, otherwise solve the per-axis
scales and the translation. `none` is the rejection (warning dialog)
path. -/
def calibrate_mapping (height : Option ℚ) (p1img p1real p2img p2real : Vec2) :
    Option MappingMatrix :=
  let v1 := image_point_to_mapping_space height p1img
  let v2 := image_point_to_mapping_space height p2img
  let imgDx := v2.x - v1.x
  let imgDy := v2.y - v1.y
  let realDx := p2real.x - p1real.x
  let realDy := p2real.y - p1real.y
  if |imgDx| < 1 / 1000000 ∨ |imgDy| < 1 / 1000000 then none
  else
    let scaleX := realDx / imgDx
    let scaleY := realDy / imgDy
    some ⟨scaleX, scaleY, p1real.x - scaleX * v1.x, p1real.y - scaleY * v1.y⟩

/-- Embeds `SmartHandApp.image_to_real_coordinates`: `None` when no mapping
is calibrated, otherwise apply the diagonal scale and translation to the
Y-flipped query point. -/
def image_to_real_coordinates (height : Option ℚ) (m : Option MappingMatrix)
    (p : Vec2) : Option Vec2 :=
  match m with
  | none => none
  | some m =>
    let v := image_point_to_mapping_space height p
    some ⟨m.sx * v.x + m.tx, m.sy * v.y + m.ty⟩

/-! ## Homography full-image extension (app.py lines 886-926) -/

/-- A 3×3 projective matrix, row major. -/
structure Mat3 where
  m00 : ℚ
  m01 : ℚ
  m02 : ℚ
  m10 : ℚ
  m11 : ℚ
  m12 : ℚ
  m20 : ℚ
  m21 : ℚ
  m22 : ℚ
deriving DecidableEq

/-- Matrix product, embedding `numpy`'s `@` on 3×3 arrays. -/
def mat3Mul (A B : Mat3) : Mat3 :=
  ⟨A.m00 * B.m00 + A.m01 * B.m10 + A.m02 * B.m20,
   A.m00 * B.m01 + A.m01 * B.m11 + A.m02 * B.m21,
   A.m00 * B.m02 + A.m01 * B.m12 + A.m02 * B.m22,
   A.m10 * B.m00 + A.m11 * B.m10 + A.m12 * B.m20,
   A.m10 * B.m01 + A.m11 * B.m11 + A.m12 * B.m21,
   A.m10 * B.m02 + A.m11 * B.m12 + A.m12 * B.m22,
   A.m20 * B.m00 + A.m21 * B.m10 + A.m22 * B.m20,
   A.m20 * B.m01 + A.m21 * B.m11 + A.m22 * B.m21,
   A.m20 * B.m02 + A.m21 * B.m12 + A.m22 * B.m22⟩

/-- Determinant of a 3×3 matrix. -/
def det3 (M : Mat3) : ℚ :=
  M.m00 * (M.m11 * M.m22 - M.m12 * M.m21)
    - M.m01 * (M.m10 * M.m22 - M.m12 * M.m20)
    + M.m02 * (M.m10 * M.m21 - M.m11 * M.m20)

/-- Homogeneous denominator of a projected point. -/
def projDenom (M : Mat3) (p : Vec2) : ℚ :=
  M.m20 * p.x + M.m21 * p.y + M.m22

/-- Embeds `cv2.perspectiveTransform` on one point: apply the matrix in
homogeneous coordinates and divide by the third component. -/
def projectPoint (M : Mat3) (p : Vec2) : Vec2 :=
  let d := projDenom M p
  ⟨(M.m00 * p.x + M.m01 * p.y + M.m02) / d,
   (M.m10 * p.x + M.m11 * p.y + M.m12) / d⟩

/-- Output of the full-image branch of `calculate_transformation_matrix`:
the combined matrix and the recorded `transformed_size`. -/
structure TransformResult where
  matrix : Mat3
  width : ℤ
  height : ℤ
deriving DecidableEq

/-- Embeds `MAX_TRANSFORM_DIMENSION` from utils.py. -/
def MAX_TRANSFORM_DIMENSION : ℚ := 4096

/-- Embeds the `transformFullImage` branch of
`SmartHandApp.calculate_transformation_matrix` (app.py lines 886-926):
project the four source-frame corners through `M`, bound them, prepend the
translation moving the bounding-box minimum to the origin, substitute the
frame size when the box is degenerate, prepend a uniform downscale when a
dimension exceeds `MAX_TRANSFORM_DIMENSION`, and record the ceiling of the
final dimensions, each at least 1. -/
def calculate_full_image_transform (M : Mat3) (w h : ℚ) : TransformResult :=
  let c1 := projectPoint M ⟨0, 0⟩
  let c2 := projectPoint M ⟨w, 0⟩
  let c3 := projectPoint M ⟨w, h⟩
  let c4 := projectPoint M ⟨0, h⟩
  let minX := min c1.x (min c2.x (min c3.x c4.x))
  let maxX := max c1.x (max c2.x (max c3.x c4.x))
  let minY := min c1.y (min c2.y (min c3.y c4.y))
  let maxY := max c1.y (max c2.y (max c3.y c4.y))
  let translation : Mat3 := ⟨1, 0, -minX, 0, 1, -minY, 0, 0, 1⟩
  let rawW0 := maxX - minX
  let rawH0 := maxY - minY
  let rawW1 := if rawW0 ≤ 0 ∨ rawH0 ≤ 0 then w else rawW0
  let rawH1 := if rawW0 ≤ 0 ∨ rawH0 ≤ 0 then h else rawH0
  let sf :=
    if rawW1 > MAX_TRANSFORM_DIMENSION ∨ rawH1 > MAX_TRANSFORM_DIMENSION then
      min (MAX_TRANSFORM_DIMENSION / rawW1) (MAX_TRANSFORM_DIMENSION / rawH1)
    else 1
  let scaleM : Mat3 := ⟨sf, 0, 0, 0, sf, 0, 0, 0, 1⟩
  { matrix := mat3Mul scaleM (mat3Mul translation M)
    width := max 1 ⌈rawW1 * sf⌉
    height := max 1 ⌈rawH1 * sf⌉ }

/-- Modelled from the spec's wording of §4.1 step 4 (the claim's text): the
same computation but with no substitution of the frame size for a
degenerate bounding box — the recorded output size is always the ceiling
of the (possibly scaled) bounding-box dimensions, each at least 1. -/
def spec_full_image_transform (M : Mat3) (w h : ℚ) : TransformResult :=
  let c1 := projectPoint M ⟨0, 0⟩
  let c2 := projectPoint M ⟨w, 0⟩
  let c3 := projectPoint M ⟨w, h⟩
  let c4 := projectPoint M ⟨0, h⟩
  let minX := min c1.x (min c2.x (min c3.x c4.x))
  let maxX := max c1.x (max c2.x (max c3.x c4.x))
  let minY := min c1.y (min c2.y (min c3.y c4.y))
  let maxY := max c1.y (max c2.y (max c3.y c4.y))
  let translation : Mat3 := ⟨1, 0, -minX, 0, 1, -minY, 0, 0, 1⟩
  let rawW1 := maxX - minX
  let rawH1 := maxY - minY
  let sf :=
    if rawW1 > MAX_TRANSFORM_DIMENSION ∨ rawH1 > MAX_TRANSFORM_DIMENSION then
      min (MAX_TRANSFORM_DIMENSION / rawW1) (MAX_TRANSFORM_DIMENSION / rawH1)
    else 1
  let scaleM : Mat3 := ⟨sf, 0, 0, 0, sf, 0, 0, 0, 1⟩
  { matrix := mat3Mul scaleM (mat3Mul translation M)
    width := max 1 ⌈rawW1 * sf⌉
    height := max 1 ⌈rawH1 * sf⌉ }

/-! ## Serial line utilities

Python `str` values on the serial link are modelled as `List Char`. -/

/-- Whitespace recognised by Python's `str.strip()` (the characters that
occur on this serial link). -/
def isSpaceChar (c : Char) : Bool :=
  c = ' ' || c = '\t' || c = '\n' || c = '\r'

/-- Embeds `str.strip()`: drop whitespace from both ends. -/
def trimLine (l : List Char) : List Char :=
  (((l.dropWhile isSpaceChar).reverse).dropWhile isSpaceChar).reverse

/-- ASCII lower-casing of one character, as `str.lower()` does on the
protocol's ASCII lines. -/
def lowerChar (c : Char) : Char :=
  if 'A' ≤ c ∧ c ≤ 'Z' then Char.ofNat (c.toNat + 32) else c

/-- Embeds `str.lower()` on a line. -/
def lowerLine (l : List Char) : List Char := l.map lowerChar

/-- Embeds `str.startswith(pre)`. -/
def hasPrefixChars : List Char → List Char → Bool
  | [], _ => true
  | _ :: _, [] => false
  | p :: ps, c :: cs => p = c && hasPrefixChars ps cs

/-- A stripped line terminates the acknowledgment wait when its lower-cased
form starts with `ok` or `error` (robot.py line 109). -/
def isAckLine (l : List Char) : Bool :=
  hasPrefixChars ("ok".data) (lowerLine l) ||
    hasPrefixChars ("error".data) (lowerLine l)

/-- Embeds `str.split(sep)` for a single-character separator, keeping empty
fields exactly as Python does. -/
def splitOnChar (sep : Char) : List Char → List (List Char)
  | [] => [[]]
  | c :: cs =>
    let r := splitOnChar sep cs
    if c = sep then [] :: r
    else
      match r with
      | [] => [[c]]
      | hd :: tl => (c :: hd) :: tl

/-! ## Numeric conversions used by the two dwell variants -/

/-- Embeds Python's `int()` on a real value: truncation toward zero. -/
def truncQ (q : ℚ) : ℤ :=
  if q < 0 then -⌊-q⌋ else ⌊q⌋

/-- Embeds the rounding of the format `"%.0f"` (IEEE round half to even)
applied to an exactly represented value. -/
def roundHalfEven (q : ℚ) : ℤ :=
  let f := ⌊q⌋
  let r := q - f
  if r < 1 / 2 then f
  else if 1 / 2 < r then f + 1
  else if f % 2 = 0 then f else f + 1

/-! ## RobotController state and device model -/

/-- G-code commands written to the serial link. `g01` records which axes
were included and the appended feedrate; `g04` is robot.py's dwell and
`g4` SmartHand.py's dwell, each with its integer millisecond parameter. -/
inductive Cmd where
  | g90 : Cmd
  | g91 : Cmd
  | g28 : Cmd
  | m114 : Cmd
  | g01 (x y z : Option ℚ) (f : ℚ) : Cmd
  | g04 (ms : ℤ) : Cmd
  | g4 (ms : ℤ) : Cmd
deriving DecidableEq

/-- Behaviour of the device for one written command: either a scripted list
of raw reply lines that arrive in the input buffer, or a raised serial
exception during the exchange. -/
inductive DevResp where
  | replies (lines : List (List Char)) : DevResp
  | crash : DevResp

/-- A scripted device: the i-th command written receives the i-th entry of
the script; past the end of the script the exchange raises. -/
def scriptDevice (script : List DevResp) : ℕ → DevResp :=
  fun i => script.getD i DevResp.crash

/-- State of a `RobotController` together with its serial peer:
`connected` is `is_connected()`; `pos` the tracked `current_position`;
`sent` the ordered log of command lines written so far; `device` the
scripted peer, indexed by `cmdIndex`, the number of writes attempted so
far; `buffer` the unread lines pending in the input buffer. -/
structure RobotState where
  connected : Bool
  pos : Vec3
  homeZ : ℚ
  defaultFeedrate : ℚ
  handshakeResponse : List Char
  sent : List Cmd
  device : ℕ → DevResp
  cmdIndex : ℕ
  buffer : List (List Char)

/-- Embeds the acknowledgment-wait loop of `send_command` (robot.py lines
102-110): each iteration consumes one unit of the time budget and one
buffered line (an empty buffer stands for `readline` returning nothing);
stripped empty lines are skipped, other lines are collected, and a line
starting with `ok`/`error` (case-insensitive) ends the wait. Returns the
collected responses and the lines left unread in the buffer. -/
def collectResponses : List (List Char) → ℕ → List (List Char) × List (List Char)
  | buf, 0 => ([], buf)
  | [], _ + 1 => ([], [])
  | l :: rest, fuel + 1 =>
    let t := trimLine l
    if t = [] then collectResponses rest fuel
    else if isAckLine t then ([t], rest)
    else
      let pr := collectResponses rest fuel
      (t :: pr.1, pr.2)

/-- Embeds `RobotController.send_command`: raise (`none`) when not
connected; otherwise drain the input buffer, write the command (the
scripted device may raise instead, `DevResp.crash`), and, when an
acknowledgment is expected, run the wait loop with the given time budget.
The command log, device cursor and buffer are threaded through the state. -/
def send_command (st : RobotState) (cmd : Cmd) (wait : Bool) (fuel : ℕ) :
    Option (List (List Char)) × RobotState :=
  if st.connected = false then (none, st)
  else
    match st.device st.cmdIndex with
    | DevResp.crash => (none, { st with cmdIndex := st.cmdIndex + 1, buffer := [] })
    | DevResp.replies ls =>
      let st1 := { st with sent := st.sent ++ [cmd], cmdIndex := st.cmdIndex + 1,
                           buffer := ls }
      if wait then
        let pr := collectResponses st1.buffer fuel
        (some pr.1, { st1 with buffer := pr.2 })
      else (some [], st1)

/-- Embeds `set_absolute_mode` (both variants): fire-and-forget `G90`,
skipped silently when disconnected; a raised write surfaces as `none`. -/
def set_absolute_mode (st : RobotState) (fuel : ℕ) :
    Option Unit × RobotState :=
  if st.connected then
    let pr := send_command st Cmd.g90 false fuel
    match pr.1 with
    | none => (none, pr.2)
    | some _ => (some (), pr.2)
  else (some (), st)

/-- Embeds `set_relative_mode` (both variants): fire-and-forget `G91`. -/
def set_relative_mode (st : RobotState) (fuel : ℕ) :
    Option Unit × RobotState :=
  if st.connected then
    let pr := send_command st Cmd.g91 false fuel
    match pr.1 with
    | none => (none, pr.2)
    | some _ => (some (), pr.2)
  else (some (), st)

/-- Axis override used by `move_linear_absolute`: each axis given a value
is assigned, the others keep their tracked value. -/
def overrideAxes (p : Vec3) (x y z : Option ℚ) : Vec3 :=
  ⟨x.getD p.x, y.getD p.y, z.getD p.z⟩

/-- Embeds `RobotController.move_linear_absolute` (robot.py lines 129-152):
raise when disconnected, send one `G01` with the given axes and feedrate
(default feedrate when omitted), then assign the given axes into the
tracked position — unconditionally on any normal return of the send. -/
def robot_move_linear_absolute (st : RobotState) (x y z : Option ℚ)
    (feedrate : Option ℚ) (fuel : ℕ) :
    Option (List (List Char)) × RobotState :=
  if st.connected = false then (none, st)
  else
    let f := feedrate.getD st.defaultFeedrate
    let pr := send_command st (Cmd.g01 x y z f) true fuel
    match pr.1 with
    | none => (none, pr.2)
    | some resp => (some resp, { pr.2 with pos := overrideAxes pr.2.pos x y z })

/-- Embeds `RobotController.move_linear_relative` (robot.py lines 154-178):
switch to relative mode, send one `G01` with the deltas, switch back to
absolute mode, then add the deltas into the tracked position. There is no
try/finally: a raise at any send propagates and skips the rest. -/
def robot_move_linear_relative (st : RobotState) (dx dy dz : Option ℚ)
    (feedrate : Option ℚ) (fuel : ℕ) :
    Option (List (List Char)) × RobotState :=
  if st.connected = false then (none, st)
  else
    let f := feedrate.getD st.defaultFeedrate
    let r1 := set_relative_mode st fuel
    match r1.1 with
    | none => (none, r1.2)
    | some _ =>
      let r2 := send_command r1.2 (Cmd.g01 dx dy dz f) true fuel
      match r2.1 with
      | none => (none, r2.2)
      | some resp =>
        let r3 := set_absolute_mode r2.2 fuel
        match r3.1 with
        | none => (none, r3.2)
        | some _ =>
          (some resp,
           { r3.2 with pos := ⟨r3.2.pos.x + (dx.getD 0 : ℚ),
                               r3.2.pos.y + (dy.getD 0 : ℚ),
                               r3.2.pos.z + (dz.getD 0 : ℚ)⟩ })

/-- Axis inclusion test of SmartHand.py's relative move: Python's `if dx:`
keeps an axis word only for a nonzero delta. -/
def axisWord (d : ℚ) : Option ℚ :=
  if d = 0 then none else some d

/-- Embeds SmartHand.py's `move_linear_relative` (lines 177-203): zero
deltas (within `np.allclose` tolerance `1e-8`) return at once with no
command; otherwise switch to relative mode and run the `G01` send and the
position update inside a try whose finally always switches back to
absolute mode; only nonzero deltas are written as axis words (`if dx:`).
A raise inside the try still runs the finally and then propagates; a raise
in the finally itself propagates as well. -/
def smart_move_linear_relative (st : RobotState) (dx dy dz : ℚ)
    (feedrate : Option ℚ) (fuel : ℕ) :
    Option (List (List Char)) × RobotState :=
  if st.connected = false then (none, st)
  else if |dx| ≤ 1 / 100000000 ∧ |dy| ≤ 1 / 100000000 ∧ |dz| ≤ 1 / 100000000 then
    (some [], st)
  else
    let f := feedrate.getD st.defaultFeedrate
    let r1 := set_relative_mode st fuel
    match r1.1 with
    | none => (none, r1.2)
    | some _ =>
      let r2 := send_command r1.2
        (Cmd.g01 (axisWord dx) (axisWord dy) (axisWord dz) f) true fuel
      match r2.1 with
      | none =>
        let r3 := set_absolute_mode r2.2 fuel
        (none, r3.2)
      | some resp =>
        let st2 := { r2.2 with pos := ⟨r2.2.pos.x + dx, r2.2.pos.y + dy,
                                       r2.2.pos.z + dz⟩ }
        let r3 := set_absolute_mode st2 fuel
        match r3.1 with
        | none => (none, r3.2)
        | some _ => (some resp, r3.2)

/-- Embeds robot.py's `dwell` (lines 180-184): return at once for a
non-positive duration, otherwise send `G04 P<ms>` where the parameter is
the duration in milliseconds formatted with `"%.0f"` — no 1 ms floor. -/
def robot_dwell (st : RobotState) (duration : ℚ) (fuel : ℕ) :
    Option (List (List Char)) × RobotState :=
  if duration ≤ 0 then (some [], st)
  else send_command st (Cmd.g04 (roundHalfEven (max 0 duration * 1000))) true fuel

/-- The millisecond parameter of SmartHand.py's `dwell` (line 206):
`max(int(seconds * 1000), 1)`. -/
def smart_dwell_ms (seconds : ℚ) : ℤ :=
  max (truncQ (seconds * 1000)) 1

/-- Embeds SmartHand.py's `dwell` (lines 205-207): always send `G4 P<ms>`
with the truncated milliseconds floored at 1. -/
def smart_dwell (st : RobotState) (seconds : ℚ) (fuel : ℕ) :
    Option (List (List Char)) × RobotState :=
  send_command st (Cmd.g4 (smart_dwell_ms seconds)) true fuel

/-- Embeds `home` (robot.py lines 124-127): send `G28` awaiting an
acknowledgment, then reset the tracked position to `(0, 0, homeZ)`; a
raised send propagates before the reset. -/
def robot_home (st : RobotState) (fuel : ℕ) :
    Option (List (List Char)) × RobotState :=
  let pr := send_command st Cmd.g28 true fuel
  match pr.1 with
  | none => (none, pr.2)
  | some resp => (some resp, { pr.2 with pos := ⟨0, 0, pr.2.homeZ⟩ })

/-- Embeds robot.py's `disconnect` (lines 64-71): close and forget the
connection; the tracked position is left untouched. -/
def robot_disconnect (st : RobotState) : RobotState :=
  { st with connected := false }

/-- Embeds SmartHand.py's `disconnect` (lines 89-96): when a connection
object exists, close it and, in the finally, clear it and reset the
tracked position to `(0, 0, homeZ)`. -/
def smart_disconnect (st : RobotState) : RobotState :=
  if st.connected then { st with connected := false, pos := ⟨0, 0, st.homeZ⟩ }
  else st

/-- Embeds robot.py's `connect` (lines 39-62): disconnect any live
connection, open the port (`openOk` false models a raised open), read the
handshake reply, and on the expected response install the connection,
reset the tracked position to `(0, 0, homeZ)` and send `G90`; any
handshake mismatch closes the port and reports failure. -/
def robot_connect (st : RobotState) (openOk : Bool) (handshakeReply : List Char)
    (fuel : ℕ) : Bool × RobotState :=
  let st0 := if st.connected then robot_disconnect st else st
  if openOk = false then (false, st0)
  else if trimLine handshakeReply = st0.handshakeResponse then
    let st1 := { st0 with connected := true, pos := ⟨0, 0, st0.homeZ⟩ }
    let r := set_absolute_mode st1 fuel
    (true, r.2)
  else (false, st0)

/-- Parse of one `M114` response line (robot.py lines 195-207): split the
line on spaces, look for the first fields starting with `X:`, `Y:` and
`Z:`, and convert the text after the first colon of each through Python's
`float` — modelled by the oracle `pf`; any missing field or failed
conversion rejects the line. -/
def parseM114Line (pf : List Char → Option ℚ) (line : List Char) :
    Option Vec3 :=
  let parts := splitOnChar ' ' line
  match parts.find? (hasPrefixChars ("X:".data)),
        parts.find? (hasPrefixChars ("Y:".data)),
        parts.find? (hasPrefixChars ("Z:".data)) with
  | some xp, some yp, some zp =>
    match pf ((splitOnChar ':' xp).getD 1 []),
          pf ((splitOnChar ':' yp).getD 1 []),
          pf ((splitOnChar ':' zp).getD 1 []) with
    | some x, some y, some z => some ⟨x, y, z⟩
    | _, _, _ => none
  | _, _, _ => none

/-- Embeds `get_position` (robot.py lines 189-209): when disconnected,
return a copy of the tracked position without touching the wire; when
connected, send `M114`, overwrite the tracked position with the first
response line that parses, and return a copy of the (possibly updated)
tracked position. A raised send propagates. -/
def get_position (st : RobotState) (pf : List Char → Option ℚ) (fuel : ℕ) :
    Option Vec3 × RobotState :=
  if st.connected = false then (some st.pos, st)
  else
    let pr := send_command st Cmd.m114 true fuel
    match pr.1 with
    | none => (none, pr.2)
    | some resp =>
      match resp.findSome? (parseM114Line pf) with
      | some v => (some v, { pr.2 with pos := v })
      | none => (some pr.2.pos, pr.2)

/-- Embeds `SmartHandApp.run_touch_sequence` (app.py lines 1557-1584): the
five scripted steps — raise to `safeZ`, move XY to the target, lower to
`phoneZ - touchForce`, dwell, raise back — each through the robot.py
controller, inside a try that turns any raised step into a `False` return;
on success the tracked position is refreshed through `get_position` (whose
own raise would escape the handler, result `none`). -/
def run_touch_sequence (st : RobotState) (pf : List Char → Option ℚ)
    (realX realY phoneZ touchForce touchDuration safeZ feedrate : ℚ)
    (fuel : ℕ) : Option Bool × RobotState :=
  let touchZ := phoneZ - touchForce
  let s1 := robot_move_linear_absolute st none none (some safeZ) (some feedrate) fuel
  match s1.1 with
  | none => (some false, s1.2)
  | some _ =>
    let s2 := robot_move_linear_absolute s1.2 (some realX) (some realY) none
      (some feedrate) fuel
    match s2.1 with
    | none => (some false, s2.2)
    | some _ =>
      let s3 := robot_move_linear_absolute s2.2 none none (some touchZ)
        (some feedrate) fuel
      match s3.1 with
      | none => (some false, s3.2)
      | some _ =>
        let s4 := robot_dwell s3.2 touchDuration fuel
        match s4.1 with
        | none => (some false, s4.2)
        | some _ =>
          let s5 := robot_move_linear_absolute s4.2 none none (some safeZ)
            (some feedrate) fuel
          match s5.1 with
          | none => (some false, s5.2)
          | some _ =>
            let s6 := get_position s5.2 pf fuel
            match s6.1 with
            | none => (none, s6.2)
            | some _ => (some true, s6.2)

/-! ## Theorems -/

/-- Helper: the value `calibrate_mapping` fits when the degeneracy guard
passes. -/
theorem calibrate_mapping_eq_of_guard (height : Option ℚ)
    (p1img p1real p2img p2real : Vec2)
    (h : ¬(|(image_point_to_mapping_space height p2img).x -
            (image_point_to_mapping_space height p1img).x| < 1 / 1000000 ∨
          |(image_point_to_mapping_space height p2img).y -
            (image_point_to_mapping_space height p1img).y| < 1 / 1000000)) :
    calibrate_mapping height p1img p1real p2img p2real =
      some ⟨(p2real.x - p1real.x) /
              ((image_point_to_mapping_space height p2img).x -
               (image_point_to_mapping_space height p1img).x),
            (p2real.y - p1real.y) /
              ((image_point_to_mapping_space height p2img).y -
               (image_point_to_mapping_space height p1img).y),
            p1real.x - (p2real.x - p1real.x) /
              ((image_point_to_mapping_space height p2img).x -
               (image_point_to_mapping_space height p1img).x) *
              (image_point_to_mapping_space height p1img).x,
            p1real.y - (p2real.y - p1real.y) /
              ((image_point_to_mapping_space height p2img).y -
               (image_point_to_mapping_space height p1img).y) *
              (image_point_to_mapping_space height p1img).y⟩ := by
  simp only [calibrate_mapping]
  rw [if_neg h]

/-- C1: for two calibration pairs whose image points, after the Y-flip to
Cartesian coordinates, differ by more than `1e-6` in both coordinates,
`calibrate_mapping` succeeds and `image_to_real_coordinates` (with the same
frame height in effect) maps each calibration image point exactly to its
robot point. -/
theorem calibration_node_exactness (height : Option ℚ)
    (p1img p1real p2img p2real : Vec2)
    (hdx : 1 / 1000000 < |(image_point_to_mapping_space height p2img).x -
                          (image_point_to_mapping_space height p1img).x|)
    (hdy : 1 / 1000000 < |(image_point_to_mapping_space height p2img).y -
                          (image_point_to_mapping_space height p1img).y|) :
    ∃ m, calibrate_mapping height p1img p1real p2img p2real = some m ∧
      image_to_real_coordinates height (some m) p1img = some p1real ∧
      image_to_real_coordinates height (some m) p2img = some p2real := by
  have hguard : ¬(|(image_point_to_mapping_space height p2img).x -
                   (image_point_to_mapping_space height p1img).x| < 1 / 1000000 ∨
                 |(image_point_to_mapping_space height p2img).y -
                   (image_point_to_mapping_space height p1img).y| < 1 / 1000000) := by
    push_neg
    exact ⟨hdx.le, hdy.le⟩
  have hdx0 : (image_point_to_mapping_space height p2img).x -
      (image_point_to_mapping_space height p1img).x ≠ 0 := by
    intro h0
    rw [h0, abs_zero] at hdx
    linarith
  have hdy0 : (image_point_to_mapping_space height p2img).y -
      (image_point_to_mapping_space height p1img).y ≠ 0 := by
    intro h0
    rw [h0, abs_zero] at hdy
    linarith
  refine ⟨_, calibrate_mapping_eq_of_guard height p1img p1real p2img p2real hguard,
    ?_, ?_⟩
  · simp only [image_to_real_coordinates, Option.some.injEq]
    obtain ⟨rx, ry⟩ := p1real
    rw [Vec2.mk.injEq]
    constructor <;> ring
  · simp only [image_to_real_coordinates, Option.some.injEq]
    obtain ⟨rx, ry⟩ := p1real
    obtain ⟨sx, sy⟩ := p2real
    rw [Vec2.mk.injEq]
    constructor <;> (field_simp; ring)

/-- Witness for C1 at the calibration scenario `p1 = ((0,0),(10,10))`,
`p2 = ((100,50),(60,110))` with frame height 200. -/
theorem calibration_node_exactness_witness :
    (1 / 1000000 < |(image_point_to_mapping_space (some 200) ⟨100, 50⟩).x -
                    (image_point_to_mapping_space (some 200) ⟨0, 0⟩).x| ∧
     1 / 1000000 < |(image_point_to_mapping_space (some 200) ⟨100, 50⟩).y -
                    (image_point_to_mapping_space (some 200) ⟨0, 0⟩).y|) ∧
    ∃ m, calibrate_mapping (some 200) ⟨0, 0⟩ ⟨10, 10⟩ ⟨100, 50⟩ ⟨60, 110⟩ = some m ∧
      image_to_real_coordinates (some 200) (some m) ⟨0, 0⟩ = some ⟨10, 10⟩ ∧
      image_to_real_coordinates (some 200) (some m) ⟨100, 50⟩ = some ⟨60, 110⟩ :=
  ⟨⟨by norm_num [image_point_to_mapping_space],
    by norm_num [image_point_to_mapping_space]⟩,
   calibration_node_exactness (some 200) ⟨0, 0⟩ ⟨10, 10⟩ ⟨100, 50⟩ ⟨60, 110⟩
     (by norm_num [image_point_to_mapping_space])
     (by norm_num [image_point_to_mapping_space])⟩

/-- C3: when the two calibration image points give a Cartesian delta below
`1e-6` in absolute value along either axis, `calibrate_mapping` rejects the
fit and produces no mapping. -/
theorem degenerate_axes_rejected (height : Option ℚ)
    (p1img p1real p2img p2real : Vec2)
    (hdeg : |(image_point_to_mapping_space height p2img).x -
             (image_point_to_mapping_space height p1img).x| < 1 / 1000000 ∨
            |(image_point_to_mapping_space height p2img).y -
             (image_point_to_mapping_space height p1img).y| < 1 / 1000000) :
    calibrate_mapping height p1img p1real p2img p2real = none := by
  simp only [calibrate_mapping]
  rw [if_pos hdeg]

/-- Witness for C3 at the spec's example `p1 = (100,100)`, `p2 = (100,300)`
(identical x pixel coordinate) with distinct robot points and frame height
400. -/
theorem degenerate_axes_rejected_witness :
    (|(image_point_to_mapping_space (some 400) ⟨100, 300⟩).x -
      (image_point_to_mapping_space (some 400) ⟨100, 100⟩).x| < 1 / 1000000 ∨
     |(image_point_to_mapping_space (some 400) ⟨100, 300⟩).y -
      (image_point_to_mapping_space (some 400) ⟨100, 100⟩).y| < 1 / 1000000) ∧
    calibrate_mapping (some 400) ⟨100, 100⟩ ⟨0, 0⟩ ⟨100, 300⟩ ⟨5, 7⟩ = none :=
  ⟨Or.inl (by norm_num [image_point_to_mapping_space]),
   degenerate_axes_rejected (some 400) ⟨100, 100⟩ ⟨0, 0⟩ ⟨100, 300⟩ ⟨5, 7⟩
     (Or.inl (by norm_num [image_point_to_mapping_space]))⟩

/-- Helper: a send with the device scripted to reply, fully unfolded. -/
theorem send_command_replies (st : RobotState) (cmd : Cmd) (fuel : ℕ)
    (ls : List (List Char)) (hconn : st.connected = true)
    (hdev : st.device st.cmdIndex = DevResp.replies ls) :
    send_command st cmd true fuel =
      (some (collectResponses ls fuel).1,
       { st with sent := st.sent ++ [cmd], cmdIndex := st.cmdIndex + 1,
                 buffer := (collectResponses ls fuel).2 }) := by
  simp [send_command, hconn, hdev]

/-- Helper: a fire-and-forget send with the device scripted to reply. -/
theorem send_command_replies_nowait (st : RobotState) (cmd : Cmd) (fuel : ℕ)
    (ls : List (List Char)) (hconn : st.connected = true)
    (hdev : st.device st.cmdIndex = DevResp.replies ls) :
    send_command st cmd false fuel =
      (some [],
       { st with sent := st.sent ++ [cmd], cmdIndex := st.cmdIndex + 1,
                 buffer := ls }) := by
  simp [send_command, hconn, hdev]

/-- Helper: a send on which the device raises. -/
theorem send_command_crash (st : RobotState) (cmd : Cmd) (wait : Bool) (fuel : ℕ)
    (hconn : st.connected = true)
    (hdev : st.device st.cmdIndex = DevResp.crash) :
    send_command st cmd wait fuel =
      (none, { st with cmdIndex := st.cmdIndex + 1, buffer := [] }) := by
  simp [send_command, hconn, hdev]

/-- C4: when a command awaits acknowledgment and the device replies with two
non-empty non-terminating lines followed by `ok`, the collected response
list has exactly the three stripped lines and no further buffered lines are
consumed — they stay in the input buffer. -/
theorem response_collection_stops_at_ack (st : RobotState) (cmd : Cmd)
    (fuel : ℕ) (l1 l2 : List Char) (rest : List (List Char))
    (hconn : st.connected = true)
    (hdev : st.device st.cmdIndex =
      DevResp.replies (l1 :: l2 :: ("ok".data) :: rest))
    (h1e : trimLine l1 ≠ []) (h1a : isAckLine (trimLine l1) = false)
    (h2e : trimLine l2 ≠ []) (h2a : isAckLine (trimLine l2) = false)
    (hfuel : 3 ≤ fuel) :
    (send_command st cmd true fuel).1 =
      some [trimLine l1, trimLine l2, "ok".data] ∧
    (send_command st cmd true fuel).2.buffer = rest := by
  obtain ⟨n, rfl⟩ : ∃ n, fuel = n + 3 := ⟨fuel - 3, by omega⟩
  have hok : trimLine ("ok".data) = "ok".data := by decide
  have hoka : isAckLine ("ok".data) = true := by decide
  have hcollect :
      collectResponses (l1 :: l2 :: ("ok".data) :: rest) (n + 3) =
        ([trimLine l1, trimLine l2, "ok".data], rest) := by
    show collectResponses (l1 :: l2 :: ("ok".data) :: rest) ((n + 2) + 1) = _
    rw [collectResponses]
    simp only [h1e, h1a, if_neg, if_false, Bool.false_eq_true, ite_false]
    show (trimLine l1 :: (collectResponses (l2 :: ("ok".data) :: rest) ((n + 1) + 1)).1,
          (collectResponses (l2 :: ("ok".data) :: rest) ((n + 1) + 1)).2) = _
    rw [collectResponses]
    simp only [h2e, h2a, if_neg, if_false, Bool.false_eq_true, ite_false]
    show (trimLine l1 :: trimLine l2 ::
            (collectResponses (("ok".data) :: rest) (n + 1)).1,
          (collectResponses (("ok".data) :: rest) (n + 1)).2) = _
    rw [collectResponses, hok]
    simp [hoka]
  rw [send_command_replies st cmd (n + 3) _ hconn hdev, hcollect]
  exact ⟨rfl, rfl⟩

/-- Concrete state for the C4 witness: a connected controller whose device
answers the next command with `X:1 Y:2 Z:3`, `echo`, `ok` and then one more
buffered line. -/
def c4State : RobotState :=
  { connected := true, pos := ⟨0, 0, 0⟩, homeZ := -29128 / 100,
    defaultFeedrate := 2000, handshakeResponse := "YesDelta".data,
    sent := [],
    device := scriptDevice
      [DevResp.replies [("X:1 Y:2 Z:3".data), ("echo".data), ("ok".data),
                        ("later".data)]],
    cmdIndex := 0, buffer := [] }

/-- Witness for C4 at `c4State`. -/
theorem response_collection_stops_at_ack_witness :
    (c4State.connected = true ∧
     c4State.device c4State.cmdIndex =
       DevResp.replies (("X:1 Y:2 Z:3".data) :: ("echo".data) ::
         ("ok".data) :: [("later".data)]) ∧
     trimLine ("X:1 Y:2 Z:3".data) ≠ [] ∧
     isAckLine (trimLine ("X:1 Y:2 Z:3".data)) = false ∧
     trimLine ("echo".data) ≠ [] ∧
     isAckLine (trimLine ("echo".data)) = false ∧
     3 ≤ 5) ∧
    (send_command c4State Cmd.m114 true 5).1 =
      some [trimLine ("X:1 Y:2 Z:3".data), trimLine ("echo".data), "ok".data] ∧
    (send_command c4State Cmd.m114 true 5).2.buffer = [("later".data)] :=
  ⟨⟨rfl, rfl, by decide, by decide, by decide, by decide, by decide⟩,
   response_collection_stops_at_ack c4State Cmd.m114 5
     ("X:1 Y:2 Z:3".data) ("echo".data) [("later".data)] rfl rfl
     (by decide) (by decide) (by decide) (by decide) (by decide)⟩

/-- Helper: `send_command` never touches the tracked position. -/
theorem send_command_pos (st : RobotState) (cmd : Cmd) (wait : Bool) (fuel : ℕ) :
    (send_command st cmd wait fuel).2.pos = st.pos := by
  simp only [send_command]
  split
  · rfl
  · split
    · rfl
    · split
      · rfl
      · rfl

/-- Helper: `send_command` never touches the configured home height. -/
theorem send_command_homeZ (st : RobotState) (cmd : Cmd) (wait : Bool) (fuel : ℕ) :
    (send_command st cmd wait fuel).2.homeZ = st.homeZ := by
  simp only [send_command]
  split
  · rfl
  · split
    · rfl
    · split
      · rfl
      · rfl

/-- C6 (amended): the tracked position after `move_linear_absolute` is
governed solely by whether the send returned normally: any normal return —
acknowledged, partial or empty (timed-out) response list alike — assigns
the given axes, and only a raised send leaves the position unchanged. -/
theorem pose_update_on_normal_return (st : RobotState) (x y z f : Option ℚ)
    (fuel : ℕ) (res : Option (List (List Char)))
    (hconn : st.connected = true)
    (hres : (robot_move_linear_absolute st x y z f fuel).1 = res) :
    (robot_move_linear_absolute st x y z f fuel).2.pos =
      if res.isSome then overrideAxes st.pos x y z else st.pos := by
  have hpos := send_command_pos st (Cmd.g01 x y z (f.getD st.defaultFeedrate)) true fuel
  simp only [robot_move_linear_absolute, hconn, Bool.true_eq_false, if_false,
    ite_false] at hres ⊢
  cases hr : (send_command st (Cmd.g01 x y z (f.getD st.defaultFeedrate)) true fuel).1 with
  | none =>
    subst hres
    rw [hr]
    simp [hpos]
  | some resp =>
    subst hres
    rw [hr]
    simp [hpos]

/-- Concrete state for C6: a connected controller whose device stays silent
(the acknowledgment wait times out with no lines at all). -/
def c6State : RobotState :=
  { connected := true, pos := ⟨0, 0, 0⟩, homeZ := -29128 / 100,
    defaultFeedrate := 2000, handshakeResponse := "YesDelta".data,
    sent := [],
    device := scriptDevice [DevResp.replies []], cmdIndex := 0, buffer := [] }

/-- Counterexample to C6 as stated: the acknowledgment wait of this move
ends with no `ok`/`error` line (the response list is empty), yet the
tracked position is changed to the commanded target. -/
theorem pose_update_without_ack_counterexample :
    (robot_move_linear_absolute c6State (some 10) none none none 5).1 = some [] ∧
    (robot_move_linear_absolute c6State (some 10) none none none 5).2.pos =
      ⟨10, 0, 0⟩ ∧
    (⟨10, 0, 0⟩ : Vec3) ≠ c6State.pos := by
  refine ⟨rfl, rfl, ?_⟩
  simp only [c6State, ne_eq, Vec3.mk.injEq, not_and]
  intro h
  norm_num at h

/-- Witness for the amended C6 at `c6State`. -/
theorem pose_update_on_normal_return_witness :
    (c6State.connected = true ∧
     (robot_move_linear_absolute c6State (some 10) none none none 5).1 =
       some []) ∧
    (robot_move_linear_absolute c6State (some 10) none none none 5).2.pos =
      if (some ([] : List (List Char))).isSome then
        overrideAxes c6State.pos (some 10) none none
      else c6State.pos :=
  ⟨⟨rfl, rfl⟩,
   pose_update_on_normal_return c6State (some 10) none none none 5 (some [])
     rfl rfl⟩

/-- Helper: `move_linear_absolute` fully unfolded when the device replies. -/
theorem move_abs_replies (st : RobotState) (x y z f : Option ℚ) (fuel : ℕ)
    (ls : List (List Char)) (hconn : st.connected = true)
    (hdev : st.device st.cmdIndex = DevResp.replies ls) :
    robot_move_linear_absolute st x y z f fuel =
      (some (collectResponses ls fuel).1,
       { st with sent := st.sent ++ [Cmd.g01 x y z (f.getD st.defaultFeedrate)],
                 cmdIndex := st.cmdIndex + 1,
                 buffer := (collectResponses ls fuel).2,
                 pos := overrideAxes st.pos x y z }) := by
  simp only [robot_move_linear_absolute]
  rw [if_neg (by simp [hconn] : ¬st.connected = false)]
  rw [send_command_replies st _ fuel ls hconn hdev]

/-- Helper: `move_linear_absolute` fully unfolded when the device raises. -/
theorem move_abs_crash (st : RobotState) (x y z f : Option ℚ) (fuel : ℕ)
    (hconn : st.connected = true)
    (hdev : st.device st.cmdIndex = DevResp.crash) :
    robot_move_linear_absolute st x y z f fuel =
      (none, { st with cmdIndex := st.cmdIndex + 1, buffer := [] }) := by
  simp only [robot_move_linear_absolute]
  rw [if_neg (by simp [hconn] : ¬st.connected = false)]
  rw [send_command_crash st _ true fuel hconn hdev]

/-- C2 (amended): when the third scripted command of the touch sequence
raises (the first two sends return, however their waits ended), the
sequence returns failure, exactly the two preceding moves were written, no
dwell or lift command is sent afterwards, and the tracked pose reflects
only the two completed steps. -/
theorem touch_sequence_aborts_on_raise (st : RobotState)
    (pf : List Char → Option ℚ)
    (realX realY phoneZ touchForce touchDuration safeZ feedrate : ℚ)
    (fuel : ℕ) (ls0 ls1 : List (List Char))
    (hconn : st.connected = true)
    (h0 : st.device st.cmdIndex = DevResp.replies ls0)
    (h1 : st.device (st.cmdIndex + 1) = DevResp.replies ls1)
    (h2 : st.device (st.cmdIndex + 2) = DevResp.crash) :
    (run_touch_sequence st pf realX realY phoneZ touchForce touchDuration
        safeZ feedrate fuel).1 = some false ∧
    (run_touch_sequence st pf realX realY phoneZ touchForce touchDuration
        safeZ feedrate fuel).2.sent =
      st.sent ++ [Cmd.g01 none none (some safeZ) feedrate,
                  Cmd.g01 (some realX) (some realY) none feedrate] ∧
    (run_touch_sequence st pf realX realY phoneZ touchForce touchDuration
        safeZ feedrate fuel).2.pos = ⟨realX, realY, safeZ⟩ := by
  simp [run_touch_sequence, robot_move_linear_absolute, send_command,
    overrideAxes, hconn, h0, h1, h2]

/-- Concrete state for C2: a connected controller whose device acknowledges
the first two commands, stays silent on the third (the acknowledgment wait
for the lowering move times out), and acknowledges the rest. -/
def c2TimeoutState : RobotState :=
  { connected := true, pos := ⟨0, 0, 0⟩, homeZ := -29128 / 100,
    defaultFeedrate := 2000, handshakeResponse := "YesDelta".data,
    sent := [],
    device := scriptDevice
      [DevResp.replies [("ok".data)], DevResp.replies [("ok".data)],
       DevResp.replies [], DevResp.replies [("ok".data)],
       DevResp.replies [("ok".data)], DevResp.replies []],
    cmdIndex := 0, buffer := [] }

/-- Counterexample to C2 as stated: when the device times out (replies
nothing) on the third scripted command, the touch sequence does not fail —
it sends the dwell and the lift anyway and reports success, because a
timed-out acknowledgment wait returns partial responses without raising. -/
theorem touch_sequence_timeout_counterexample :
    (run_touch_sequence c2TimeoutState (fun _ => none) 30 40 5 1 (1 / 10) 100
        2000 5).1 = some true ∧
    (run_touch_sequence c2TimeoutState (fun _ => none) 30 40 5 1 (1 / 10) 100
        2000 5).2.sent =
      [Cmd.g01 none none (some 100) 2000,
       Cmd.g01 (some 30) (some 40) none 2000,
       Cmd.g01 none none (some 4) 2000,
       Cmd.g04 100,
       Cmd.g01 none none (some 100) 2000,
       Cmd.m114] := by
  have hz : (5 : ℚ) - 1 = 4 := by norm_num
  have hd10 : ¬((10 : ℚ) ≤ 0) := by norm_num
  have hma : roundHalfEven ((10 : ℚ)⁻¹ * 1000) = 100 := by
    have h2 : ((10 : ℚ)⁻¹ * 1000) = 100 := by norm_num
    rw [h2]
    unfold roundHalfEven
    norm_num
  have ht : trimLine ['o', 'k'] = ['o', 'k'] := by decide
  have ha : isAckLine ['o', 'k'] = true := by decide
  constructor <;>
    simp [run_touch_sequence, robot_move_linear_absolute, robot_dwell,
      get_position, send_command, collectResponses, overrideAxes,
      c2TimeoutState, scriptDevice, hz, hd10, hma, ht, ha]

/-- Concrete state for the amended C2 witness: the device acknowledges two
commands and raises on the third. -/
def c2CrashState : RobotState :=
  { connected := true, pos := ⟨0, 0, 0⟩, homeZ := -29128 / 100,
    defaultFeedrate := 2000, handshakeResponse := "YesDelta".data,
    sent := [],
    device := scriptDevice
      [DevResp.replies [("ok".data)], DevResp.replies [("ok".data)],
       DevResp.crash],
    cmdIndex := 0, buffer := [] }

/-- Witness for the amended C2 at `c2CrashState`. -/
theorem touch_sequence_aborts_on_raise_witness :
    (c2CrashState.connected = true ∧
     c2CrashState.device c2CrashState.cmdIndex =
       DevResp.replies [("ok".data)] ∧
     c2CrashState.device (c2CrashState.cmdIndex + 1) =
       DevResp.replies [("ok".data)] ∧
     c2CrashState.device (c2CrashState.cmdIndex + 2) = DevResp.crash) ∧
    (run_touch_sequence c2CrashState (fun _ => none) 30 40 5 1 (1 / 10) 100
        2000 5).1 = some false ∧
    (run_touch_sequence c2CrashState (fun _ => none) 30 40 5 1 (1 / 10) 100
        2000 5).2.sent =
      c2CrashState.sent ++ [Cmd.g01 none none (some 100) 2000,
                            Cmd.g01 (some 30) (some 40) none 2000] ∧
    (run_touch_sequence c2CrashState (fun _ => none) 30 40 5 1 (1 / 10) 100
        2000 5).2.pos = ⟨30, 40, 100⟩ :=
  ⟨⟨rfl, rfl, rfl, rfl⟩,
   touch_sequence_aborts_on_raise c2CrashState (fun _ => none) 30 40 5 1
     (1 / 10) 100 2000 5 [("ok".data)] [("ok".data)] rfl rfl rfl rfl⟩

/-- Helper: `set_relative_mode` and `set_absolute_mode` preserve the
tracked position. -/
theorem set_relative_mode_pos (st : RobotState) (fuel : ℕ) :
    (set_relative_mode st fuel).2.pos = st.pos := by
  simp only [set_relative_mode]
  split
  · have := send_command_pos st Cmd.g91 false fuel
    split <;> simpa using this
  · rfl

/-- Helper: `set_absolute_mode` preserves the tracked position. -/
theorem set_absolute_mode_pos (st : RobotState) (fuel : ℕ) :
    (set_absolute_mode st fuel).2.pos = st.pos := by
  simp only [set_absolute_mode]
  split
  · have := send_command_pos st Cmd.g90 false fuel
    split <;> simpa using this
  · rfl

/-- Concrete state for C5: a connected controller whose device accepts the
`G91` write and raises on the following `G01`. -/
def c5State : RobotState :=
  { connected := true, pos := ⟨0, 0, 0⟩, homeZ := -29128 / 100,
    defaultFeedrate := 2000, handshakeResponse := "YesDelta".data,
    sent := [],
    device := scriptDevice [DevResp.replies [], DevResp.crash],
    cmdIndex := 0, buffer := [] }

/-- Counterexample to C5 as stated: in robot.py's `move_linear_relative`
there is no scoped restore, so when the `G01` send raises the call
propagates the exception with `G91` as the last issued command — the
session is left in relative mode, not absolute. -/
theorem relative_move_restore_counterexample :
    (robot_move_linear_relative c5State (some 1) none none none 5).1 = none ∧
    (robot_move_linear_relative c5State (some 1) none none none 5).2.sent =
      [Cmd.g91] ∧
    Cmd.g91 ≠ Cmd.g90 :=
  ⟨rfl, rfl, fun h => Cmd.noConfusion h⟩

/-- C5 (amended): in the SmartHand.py variant, provided the `G91` and `G90`
writes themselves do not raise and some delta exceeds the `1e-8` tolerance,
the call issues `G91` first and `G90` last on every exit path — both when
the `G01` send raises (the finally still restores absolute mode before
propagating) and when it returns; in the robot.py variant the restore is
issued only when the move send returns normally. -/
theorem relative_move_mode_restore (st : RobotState) (dx dy dz : ℚ)
    (odx ody odz f : Option ℚ) (fuel : ℕ) (ls0 ls1 ls2 : List (List Char))
    (hconn : st.connected = true)
    (hnz : ¬(|dx| ≤ 1 / 100000000 ∧ |dy| ≤ 1 / 100000000 ∧
             |dz| ≤ 1 / 100000000))
    (h0 : st.device st.cmdIndex = DevResp.replies ls0)
    (h2 : st.device (st.cmdIndex + 2) = DevResp.replies ls2) :
    (st.device (st.cmdIndex + 1) = DevResp.crash →
      (smart_move_linear_relative st dx dy dz f fuel).1 = none ∧
      (smart_move_linear_relative st dx dy dz f fuel).2.sent =
        st.sent ++ [Cmd.g91, Cmd.g90]) ∧
    (st.device (st.cmdIndex + 1) = DevResp.replies ls1 →
      (smart_move_linear_relative st dx dy dz f fuel).2.sent =
        st.sent ++ [Cmd.g91,
          Cmd.g01 (axisWord dx) (axisWord dy) (axisWord dz)
            (f.getD st.defaultFeedrate), Cmd.g90]) ∧
    (st.device (st.cmdIndex + 1) = DevResp.replies ls1 →
      (robot_move_linear_relative st odx ody odz f fuel).2.sent =
        st.sent ++ [Cmd.g91,
          Cmd.g01 odx ody odz (f.getD st.defaultFeedrate), Cmd.g90]) := by
  simp only [one_div] at hnz
  refine ⟨fun hcr => ?_, fun hre => ?_, fun hre => ?_⟩
  · constructor <;>
      simp [smart_move_linear_relative, set_relative_mode, set_absolute_mode,
        send_command, hconn, hnz, h0, hcr, h2]
  · simp [smart_move_linear_relative, set_relative_mode, set_absolute_mode,
      send_command, hconn, hnz, h0, hre, h2]
  · simp [robot_move_linear_relative, set_relative_mode, set_absolute_mode,
      send_command, hconn, h0, hre, h2]

/-- Concrete state for the amended C5 witness, crash branch: the device
accepts `G91`, raises on the `G01`, and accepts the restoring `G90`. -/
def c5aState : RobotState :=
  { connected := true, pos := ⟨0, 0, 0⟩, homeZ := -29128 / 100,
    defaultFeedrate := 2000, handshakeResponse := "YesDelta".data,
    sent := [],
    device := scriptDevice [DevResp.replies [], DevResp.crash,
                            DevResp.replies []],
    cmdIndex := 0, buffer := [] }

/-- Concrete state for the amended C5 witness, normal branch: the device
accepts all three writes. -/
def c5bState : RobotState :=
  { connected := true, pos := ⟨0, 0, 0⟩, homeZ := -29128 / 100,
    defaultFeedrate := 2000, handshakeResponse := "YesDelta".data,
    sent := [],
    device := scriptDevice [DevResp.replies [], DevResp.replies [("ok".data)],
                            DevResp.replies []],
    cmdIndex := 0, buffer := [] }

/-- Witness for the amended C5 at `c5aState` (move raises) and `c5bState`
(move returns), each with `dx = 1`. -/
theorem relative_move_mode_restore_witness :
    (c5aState.connected = true ∧
     ¬(|(1 : ℚ)| ≤ 1 / 100000000 ∧ |(0 : ℚ)| ≤ 1 / 100000000 ∧
       |(0 : ℚ)| ≤ 1 / 100000000) ∧
     c5aState.device c5aState.cmdIndex = DevResp.replies [] ∧
     c5aState.device (c5aState.cmdIndex + 2) = DevResp.replies [] ∧
     c5aState.device (c5aState.cmdIndex + 1) = DevResp.crash) ∧
    ((smart_move_linear_relative c5aState 1 0 0 none 5).1 = none ∧
     (smart_move_linear_relative c5aState 1 0 0 none 5).2.sent =
       c5aState.sent ++ [Cmd.g91, Cmd.g90]) ∧
    (c5bState.device (c5bState.cmdIndex + 1) =
       DevResp.replies [("ok".data)] ∧
     (smart_move_linear_relative c5bState 1 0 0 none 5).2.sent =
       c5bState.sent ++ [Cmd.g91,
         Cmd.g01 (axisWord 1) (axisWord 0) (axisWord 0)
           ((none : Option ℚ).getD c5bState.defaultFeedrate), Cmd.g90] ∧
     (robot_move_linear_relative c5bState (some 1) none none none 5).2.sent =
       c5bState.sent ++ [Cmd.g91,
         Cmd.g01 (some 1) none none
           ((none : Option ℚ).getD c5bState.defaultFeedrate), Cmd.g90]) :=
  ⟨⟨rfl, by norm_num, rfl, rfl, rfl⟩,
   (relative_move_mode_restore c5aState 1 0 0 (some 1) none none none 5
      [] [] [] rfl (by norm_num) rfl rfl).1 rfl,
   ⟨rfl,
    (relative_move_mode_restore c5bState 1 0 0 (some 1) none none none 5
       [] [("ok".data)] [] rfl (by norm_num) rfl rfl).2.1 rfl,
    (relative_move_mode_restore c5bState 1 0 0 (some 1) none none none 5
       [] [("ok".data)] [] rfl (by norm_num) rfl rfl).2.2 rfl⟩⟩

/-- Concrete state for C8: a connected controller with an acknowledging
device. -/
def c8State : RobotState :=
  { connected := true, pos := ⟨0, 0, 0⟩, homeZ := -29128 / 100,
    defaultFeedrate := 2000, handshakeResponse := "YesDelta".data,
    sent := [],
    device := scriptDevice [DevResp.replies [("ok".data)]],
    cmdIndex := 0, buffer := [] }

/-- Counterexample to C8 as stated: robot.py's `dwell` has no 1 ms floor —
a 0.4 ms request is formatted with `"%.0f"` to `P0`, sending `G04 P0`. -/
theorem dwell_no_minimum_counterexample :
    (robot_dwell c8State (1 / 2500) 5).2.sent = [Cmd.g04 0] ∧
    ¬(1 ≤ (0 : ℤ)) := by
  have hma : roundHalfEven ((2500 : ℚ)⁻¹ * 1000) = 0 := by
    have h2 : ((2500 : ℚ)⁻¹ * 1000) = 2 / 5 := by norm_num
    rw [h2]
    unfold roundHalfEven
    norm_num
  have ht : trimLine ['o', 'k'] = ['o', 'k'] := by decide
  have ha : isAckLine ['o', 'k'] = true := by decide
  have h25 : ¬((2500 : ℚ) ≤ 0) := by norm_num
  constructor
  · simp [robot_dwell, send_command, collectResponses, c8State, scriptDevice,
      hma, ht, ha, h25]
  · decide

/-- C8 (amended): SmartHand.py's `dwell` does enforce the 1 ms floor — its
millisecond parameter `max(int(seconds*1000), 1)` is always at least 1, and
the command written is `G4` with exactly that parameter; robot.py's `dwell`
(see the counterexample) has no such floor. -/
theorem dwell_minimum_one_ms (st : RobotState) (seconds : ℚ) (fuel : ℕ)
    (ls : List (List Char)) (hconn : st.connected = true)
    (hdev : st.device st.cmdIndex = DevResp.replies ls) :
    1 ≤ smart_dwell_ms seconds ∧
    (smart_dwell st seconds fuel).2.sent =
      st.sent ++ [Cmd.g4 (smart_dwell_ms seconds)] := by
  constructor
  · exact le_max_right _ _
  · rw [smart_dwell, send_command_replies st _ fuel ls hconn hdev]

/-- Witness for the amended C8 at `c8State` with a 10 ms dwell request. -/
theorem dwell_minimum_one_ms_witness :
    (c8State.connected = true ∧
     c8State.device c8State.cmdIndex = DevResp.replies [("ok".data)]) ∧
    1 ≤ smart_dwell_ms (1 / 100) ∧
    (smart_dwell c8State (1 / 100) 5).2.sent =
      c8State.sent ++ [Cmd.g4 (smart_dwell_ms (1 / 100))] :=
  ⟨⟨rfl, rfl⟩, dwell_minimum_one_ms c8State (1 / 100) 5 [("ok".data)] rfl rfl⟩

/-- Concrete state for C9: a connected controller at a nonzero tracked
position. -/
def c9State : RobotState :=
  { connected := true, pos := ⟨5, 6, 7⟩, homeZ := -29128 / 100,
    defaultFeedrate := 2000, handshakeResponse := "YesDelta".data,
    sent := [],
    device := scriptDevice [DevResp.replies [("ok".data)]],
    cmdIndex := 0, buffer := [] }

/-- Counterexample to C9 as stated: robot.py's `disconnect` closes the
connection but leaves the tracked position untouched, so after it completes
the position is not `(0, 0, homeZ)`. -/
theorem disconnect_no_reset_counterexample :
    (robot_disconnect c9State).pos = ⟨5, 6, 7⟩ ∧
    (robot_disconnect c9State).connected = false ∧
    (⟨5, 6, 7⟩ : Vec3) ≠ ⟨0, 0, c9State.homeZ⟩ := by
  refine ⟨rfl, rfl, ?_⟩
  simp only [c9State, ne_eq, Vec3.mk.injEq, not_and]
  intro h
  norm_num at h

/-- C9 (amended): a successful `connect` and a completed `home` reset the
tracked position to `(0, 0, homeZ)`, and so does SmartHand.py's
`disconnect` on a live connection; robot.py's `disconnect`, however, leaves
the tracked position unchanged. -/
theorem pose_reset_semantics (st : RobotState) (openOk : Bool)
    (reply : List Char) (fuel : ℕ) (ls : List (List Char))
    (hconn : st.connected = true)
    (hdev : st.device st.cmdIndex = DevResp.replies ls)
    (hcon : (robot_connect st openOk reply fuel).1 = true) :
    (robot_connect st openOk reply fuel).2.pos = ⟨0, 0, st.homeZ⟩ ∧
    (robot_home st fuel).2.pos = ⟨0, 0, st.homeZ⟩ ∧
    (smart_disconnect st).pos = ⟨0, 0, st.homeZ⟩ ∧
    (robot_disconnect st).pos = st.pos := by
  refine ⟨?_, ?_, ?_, rfl⟩
  · simp only [robot_connect, hconn, if_true, ite_true] at hcon ⊢
    by_cases hop : openOk = false
    · rw [if_pos hop] at hcon
      exact Bool.noConfusion hcon
    · rw [if_neg hop] at hcon ⊢
      by_cases hh : trimLine reply = (robot_disconnect st).handshakeResponse
      · rw [if_pos hh]
        show (set_absolute_mode _ _).2.pos = _
        rw [set_absolute_mode_pos]
        rfl
      · rw [if_neg hh] at hcon
        exact Bool.noConfusion hcon
  · rw [robot_home, send_command_replies st _ fuel ls hconn hdev]
  · simp [smart_disconnect, hconn]

/-- Witness for the amended C9 at `c9State` (connect via a matching
handshake reply, home, and both disconnect variants). -/
theorem pose_reset_semantics_witness :
    (c9State.connected = true ∧
     c9State.device c9State.cmdIndex = DevResp.replies [("ok".data)] ∧
     (robot_connect c9State true ("YesDelta".data) 5).1 = true) ∧
    (robot_connect c9State true ("YesDelta".data) 5).2.pos =
      ⟨0, 0, c9State.homeZ⟩ ∧
    (robot_home c9State 5).2.pos = ⟨0, 0, c9State.homeZ⟩ ∧
    (smart_disconnect c9State).pos = ⟨0, 0, c9State.homeZ⟩ ∧
    (robot_disconnect c9State).pos = c9State.pos :=
  ⟨⟨rfl, rfl, rfl⟩,
   pose_reset_semantics c9State true ("YesDelta".data) 5 [("ok".data)]
     rfl rfl rfl⟩

/-- C10: `get_position` overwrites the tracked position exactly when some
collected `M114` response line parses (first qualifying line wins, via
`List.findSome?`); when no line qualifies the tracked position is returned
unchanged, and when disconnected it returns a copy of the tracked position
without sending anything — the state is untouched. -/
theorem get_position_update_semantics (st st2 : RobotState)
    (pf : List Char → Option ℚ) (fuel : ℕ) (ls : List (List Char))
    (res : Option Vec3)
    (hconn : st.connected = true)
    (hdev : st.device st.cmdIndex = DevResp.replies ls)
    (hparse : ((collectResponses ls fuel).1).findSome? (parseM114Line pf) = res)
    (hdisc : st2.connected = false) :
    (get_position st pf fuel).1 = some (res.getD st.pos) ∧
    (get_position st pf fuel).2.pos = res.getD st.pos ∧
    get_position st2 pf fuel = (some st2.pos, st2) := by
  refine ⟨?_, ?_, by simp [get_position, hdisc]⟩ <;>
  · rcases res with _ | v <;>
      simp [get_position, hconn,
        send_command_replies st Cmd.m114 fuel ls hconn hdev, hparse]

/-- The `float()` oracle used by the C10 witness: accepts the three digit
strings occurring in the scripted `M114` reply. -/
def pfWitness (l : List Char) : Option ℚ :=
  if l = ("1".data) then some 1
  else if l = ("2".data) then some 2
  else if l = ("3".data) then some 3
  else none

/-- Concrete connected state for the C10 witness: the device answers `M114`
with a parsable position line and then `ok`. -/
def c10State : RobotState :=
  { connected := true, pos := ⟨9, 9, 9⟩, homeZ := -29128 / 100,
    defaultFeedrate := 2000, handshakeResponse := "YesDelta".data,
    sent := [],
    device := scriptDevice [DevResp.replies [("X:1 Y:2 Z:3".data),
                                             ("ok".data)]],
    cmdIndex := 0, buffer := [] }

/-- Concrete disconnected state for the C10 witness. -/
def c10DiscState : RobotState :=
  { connected := false, pos := ⟨4, 5, 6⟩, homeZ := -29128 / 100,
    defaultFeedrate := 2000, handshakeResponse := "YesDelta".data,
    sent := [],
    device := scriptDevice [], cmdIndex := 0, buffer := [] }

/-- Witness for C10 at `c10State` (a parsing line overwrites the pose) and
`c10DiscState` (disconnected: copy returned, state untouched). -/
theorem get_position_update_semantics_witness :
    (c10State.connected = true ∧
     c10State.device c10State.cmdIndex =
       DevResp.replies [("X:1 Y:2 Z:3".data), ("ok".data)] ∧
     ((collectResponses [("X:1 Y:2 Z:3".data), ("ok".data)] 5).1).findSome?
       (parseM114Line pfWitness) = some ⟨1, 2, 3⟩ ∧
     c10DiscState.connected = false) ∧
    (get_position c10State pfWitness 5).1 =
      some ((some (⟨1, 2, 3⟩ : Vec3)).getD c10State.pos) ∧
    (get_position c10State pfWitness 5).2.pos =
      (some (⟨1, 2, 3⟩ : Vec3)).getD c10State.pos ∧
    get_position c10DiscState pfWitness 5 =
      (some c10DiscState.pos, c10DiscState) :=
  ⟨⟨rfl, rfl, rfl, rfl⟩,
   get_position_update_semantics c10State c10DiscState pfWitness 5
     [("X:1 Y:2 Z:3".data), ("ok".data)] (some ⟨1, 2, 3⟩)
     rfl rfl rfl rfl⟩

/-- Helper: colinearity determinant of the projected corners `(0,0)`,
`(w,0)`, `(0,h)` equals `det M * w * h` over the product of the three
homogeneous denominators — projective maps scale colinearity determinants
by the matrix determinant. -/
theorem proj_colinearity_det (M : Mat3) (w h : ℚ)
    (hd1 : projDenom M ⟨0, 0⟩ ≠ 0) (hd2 : projDenom M ⟨w, 0⟩ ≠ 0)
    (hd4 : projDenom M ⟨0, h⟩ ≠ 0) :
    ((projectPoint M ⟨w, 0⟩).x - (projectPoint M ⟨0, 0⟩).x) *
      ((projectPoint M ⟨0, h⟩).y - (projectPoint M ⟨0, 0⟩).y) -
    ((projectPoint M ⟨0, h⟩).x - (projectPoint M ⟨0, 0⟩).x) *
      ((projectPoint M ⟨w, 0⟩).y - (projectPoint M ⟨0, 0⟩).y) =
    det3 M * w * h /
      (projDenom M ⟨0, 0⟩ * projDenom M ⟨w, 0⟩ * projDenom M ⟨0, h⟩) := by
  simp only [projectPoint, projDenom, det3, mul_zero, zero_add, add_zero] at *
  field_simp
  ring

/-- Helper: if the spread of four values is non-positive, the second and
fourth equal the first. -/
theorem four_eq_of_spread_nonpos (x1 x2 x3 x4 : ℚ)
    (hle : max x1 (max x2 (max x3 x4)) - min x1 (min x2 (min x3 x4)) ≤ 0) :
    x2 = x1 ∧ x4 = x1 := by
  have hmm : max x1 (max x2 (max x3 x4)) ≤ min x1 (min x2 (min x3 x4)) := by
    linarith
  have h2max : x2 ≤ max x1 (max x2 (max x3 x4)) :=
    le_max_of_le_right (le_max_left _ _)
  have h4max : x4 ≤ max x1 (max x2 (max x3 x4)) :=
    le_max_of_le_right (le_max_of_le_right (le_max_right _ _))
  have h1max : x1 ≤ max x1 (max x2 (max x3 x4)) := le_max_left _ _
  have h1min : min x1 (min x2 (min x3 x4)) ≤ x1 := min_le_left _ _
  have h2min : min x1 (min x2 (min x3 x4)) ≤ x2 :=
    le_trans (min_le_right _ _) (min_le_left _ _)
  have h4min : min x1 (min x2 (min x3 x4)) ≤ x4 :=
    le_trans (min_le_right _ _) (le_trans (min_le_right _ _) (min_le_right _ _))
  constructor
  · exact le_antisymm (le_trans h2max (le_trans hmm h1min))
      (le_trans h1max (le_trans hmm h2min))
  · exact le_antisymm (le_trans h4max (le_trans hmm h1min))
      (le_trans h1max (le_trans hmm h4min))

/-- Helper: the bounding box of the four projected frame corners is
nondegenerate whenever the homography is invertible, the frame has positive
size, and the corners project to finite points. -/
theorem bbox_spread_pos (M : Mat3) (w h : ℚ)
    (hw : 0 < w) (hh : 0 < h) (hdet : det3 M ≠ 0)
    (hd1 : projDenom M ⟨0, 0⟩ ≠ 0) (hd2 : projDenom M ⟨w, 0⟩ ≠ 0)
    (hd4 : projDenom M ⟨0, h⟩ ≠ 0) :
    0 < max (projectPoint M ⟨0, 0⟩).x (max (projectPoint M ⟨w, 0⟩).x
          (max (projectPoint M ⟨w, h⟩).x (projectPoint M ⟨0, h⟩).x)) -
        min (projectPoint M ⟨0, 0⟩).x (min (projectPoint M ⟨w, 0⟩).x
          (min (projectPoint M ⟨w, h⟩).x (projectPoint M ⟨0, h⟩).x)) ∧
    0 < max (projectPoint M ⟨0, 0⟩).y (max (projectPoint M ⟨w, 0⟩).y
          (max (projectPoint M ⟨w, h⟩).y (projectPoint M ⟨0, h⟩).y)) -
        min (projectPoint M ⟨0, 0⟩).y (min (projectPoint M ⟨w, 0⟩).y
          (min (projectPoint M ⟨w, h⟩).y (projectPoint M ⟨0, h⟩).y)) := by
  have key := proj_colinearity_det M w h hd1 hd2 hd4
  have hne : det3 M * w * h /
      (projDenom M ⟨0, 0⟩ * projDenom M ⟨w, 0⟩ * projDenom M ⟨0, h⟩) ≠ 0 :=
    div_ne_zero (mul_ne_zero (mul_ne_zero hdet (ne_of_gt hw)) (ne_of_gt hh))
      (mul_ne_zero (mul_ne_zero hd1 hd2) hd4)
  constructor
  · by_contra hcon
    push_neg at hcon
    obtain ⟨e2, e4⟩ := four_eq_of_spread_nonpos _ _ _ _ hcon
    rw [e2, e4] at key
    simp only [sub_self, zero_mul, mul_zero, sub_zero] at key
    exact hne key.symm
  · by_contra hcon
    push_neg at hcon
    obtain ⟨e2, e4⟩ := four_eq_of_spread_nonpos _ _ _ _ hcon
    rw [e2, e4] at key
    simp only [sub_self, zero_mul, mul_zero, sub_zero] at key
    exact hne key.symm

/-- Helper: the (conditionally) downscaled dimensions both fit within the
bound. -/
theorem scaled_dims_le (a b : ℚ) (ha : 0 < a) (hb : 0 < b) :
    a * (if a > MAX_TRANSFORM_DIMENSION ∨ b > MAX_TRANSFORM_DIMENSION then
           min (MAX_TRANSFORM_DIMENSION / a) (MAX_TRANSFORM_DIMENSION / b)
         else 1) ≤ MAX_TRANSFORM_DIMENSION ∧
    b * (if a > MAX_TRANSFORM_DIMENSION ∨ b > MAX_TRANSFORM_DIMENSION then
           min (MAX_TRANSFORM_DIMENSION / a) (MAX_TRANSFORM_DIMENSION / b)
         else 1) ≤ MAX_TRANSFORM_DIMENSION := by
  by_cases hc : a > MAX_TRANSFORM_DIMENSION ∨ b > MAX_TRANSFORM_DIMENSION
  · rw [if_pos hc]
    constructor
    · calc a * min (MAX_TRANSFORM_DIMENSION / a) (MAX_TRANSFORM_DIMENSION / b) ≤
            a * (MAX_TRANSFORM_DIMENSION / a) :=
          mul_le_mul_of_nonneg_left (min_le_left _ _) ha.le
        _ = MAX_TRANSFORM_DIMENSION := by
          rw [mul_comm, div_mul_cancel₀ _ (ne_of_gt ha)]
    · calc b * min (MAX_TRANSFORM_DIMENSION / a) (MAX_TRANSFORM_DIMENSION / b) ≤
            b * (MAX_TRANSFORM_DIMENSION / b) :=
          mul_le_mul_of_nonneg_left (min_le_right _ _) hb.le
        _ = MAX_TRANSFORM_DIMENSION := by
          rw [mul_comm, div_mul_cancel₀ _ (ne_of_gt hb)]
  · rw [if_neg hc]
    push_neg at hc
    simpa using hc

/-- C7: under the validity conditions of a detected grid — positive frame
size, invertible 4-point homography, and frame corners projecting to finite
points — the full-image branch computes exactly what the claim describes
(no degenerate-box substitution can fire): corners projected, translation
to the origin prepended, conditional uniform downscale prepended, output
size the ceiling of the (possibly scaled) bounding box, and both recorded
dimensions lie between 1 and 4096. -/
theorem full_image_transform_matches_spec (M : Mat3) (w h : ℚ)
    (hw : 0 < w) (hh : 0 < h) (hdet : det3 M ≠ 0)
    (hd1 : projDenom M ⟨0, 0⟩ ≠ 0) (hd2 : projDenom M ⟨w, 0⟩ ≠ 0)
    (hd3 : projDenom M ⟨w, h⟩ ≠ 0) (hd4 : projDenom M ⟨0, h⟩ ≠ 0) :
    calculate_full_image_transform M w h = spec_full_image_transform M w h ∧
    1 ≤ (calculate_full_image_transform M w h).width ∧
    (calculate_full_image_transform M w h).width ≤ 4096 ∧
    1 ≤ (calculate_full_image_transform M w h).height ∧
    (calculate_full_image_transform M w h).height ≤ 4096 := by
  obtain ⟨hpw, hph⟩ := bbox_spread_pos M w h hw hh hdet hd1 hd2 hd4
  have hdeg : ¬(max (projectPoint M ⟨0, 0⟩).x (max (projectPoint M ⟨w, 0⟩).x
        (max (projectPoint M ⟨w, h⟩).x (projectPoint M ⟨0, h⟩).x)) -
      min (projectPoint M ⟨0, 0⟩).x (min (projectPoint M ⟨w, 0⟩).x
        (min (projectPoint M ⟨w, h⟩).x (projectPoint M ⟨0, h⟩).x)) ≤ 0 ∨
      max (projectPoint M ⟨0, 0⟩).y (max (projectPoint M ⟨w, 0⟩).y
        (max (projectPoint M ⟨w, h⟩).y (projectPoint M ⟨0, h⟩).y)) -
      min (projectPoint M ⟨0, 0⟩).y (min (projectPoint M ⟨w, 0⟩).y
        (min (projectPoint M ⟨w, h⟩).y (projectPoint M ⟨0, h⟩).y)) ≤ 0) := by
    push_neg
    exact ⟨hpw, hph⟩
  have hb := scaled_dims_le _ _ hpw hph
  simp only [calculate_full_image_transform, spec_full_image_transform]
  simp only [if_neg hdeg]
  refine ⟨trivial, le_max_left _ _, ?_, le_max_left _ _, ?_⟩
  · refine max_le (by norm_num) (Int.ceil_le.mpr ?_)
    have := hb.1
    simp only [MAX_TRANSFORM_DIMENSION] at this ⊢
    push_cast
    exact this
  · refine max_le (by norm_num) (Int.ceil_le.mpr ?_)
    have := hb.2
    simp only [MAX_TRANSFORM_DIMENSION] at this ⊢
    push_cast
    exact this

/-- Identity homography used by the C7 witness. -/
def c7Mat : Mat3 := ⟨1, 0, 0, 0, 1, 0, 0, 0, 1⟩

/-- Witness for C7 at the identity homography on a 640×480 frame. -/
theorem full_image_transform_matches_spec_witness :
    ((0 : ℚ) < 640 ∧ (0 : ℚ) < 480 ∧ det3 c7Mat ≠ 0 ∧
     projDenom c7Mat ⟨0, 0⟩ ≠ 0 ∧ projDenom c7Mat ⟨640, 0⟩ ≠ 0 ∧
     projDenom c7Mat ⟨640, 480⟩ ≠ 0 ∧ projDenom c7Mat ⟨0, 480⟩ ≠ 0) ∧
    (calculate_full_image_transform c7Mat 640 480 =
       spec_full_image_transform c7Mat 640 480 ∧
     1 ≤ (calculate_full_image_transform c7Mat 640 480).width ∧
     (calculate_full_image_transform c7Mat 640 480).width ≤ 4096 ∧
     1 ≤ (calculate_full_image_transform c7Mat 640 480).height ∧
     (calculate_full_image_transform c7Mat 640 480).height ≤ 4096) :=
  ⟨⟨by norm_num, by norm_num, by norm_num [det3, c7Mat],
    by norm_num [projDenom, c7Mat], by norm_num [projDenom, c7Mat],
    by norm_num [projDenom, c7Mat], by norm_num [projDenom, c7Mat]⟩,
   full_image_transform_matches_spec c7Mat 640 480 (by norm_num) (by norm_num)
     (by norm_num [det3, c7Mat]) (by norm_num [projDenom, c7Mat])
     (by norm_num [projDenom, c7Mat]) (by norm_num [projDenom, c7Mat])
     (by norm_num [projDenom, c7Mat])⟩
